import Mathlib

/-!
Verification of the bazel-mcp-server command-execution core (src/index.ts).

The TypeScript source is shallowly embedded: the filesystem is an association
list of paths to entry kinds, the mutable `BazelClient` fields become an
explicit `SessionState` record, each client operation is split into the
subprocess invocation(s) it issues (argument shaping) and its pure
result-shaping function over the accumulated streams, and the event-driven
stdout/stderr data handlers become a fold over an ordered list of tagged
chunk events.
-/

namespace BazelMCP

/-- Kind of a filesystem entry: a regular file or a directory. -/
inductive FSKind where
  | file
  | dir
deriving DecidableEq, Repr

/-- A model of the filesystem visible to the process: a finite association
list from absolute path strings to entry kinds. -/
abbrev FileSystem := List (String × FSKind)

/-- Look up a path in the filesystem model. -/
def fsLookup (fs : FileSystem) (p : String) : Option FSKind :=
  match fs with
  | [] => none
  | (q, k) :: rest => if q = p then some k else fsLookup rest p

/-- Models Node's `fs.existsSync`: true when the path names any existing
entry, file or directory alike (no kind or readability check). -/
def existsSync (fs : FileSystem) (p : String) : Bool :=
  (fsLookup fs p).isSome

/-- Models Node's `path.join(a, b)` for the calls the source makes
(`path.join(newPath, 'WORKSPACE')` etc.), where the second component is a
bare file name: the two parts joined by a single separator. -/
def pathJoin (a b : String) : String :=
  a ++ "/" ++ b

/-- The mutable state of `BazelClient` (src/index.ts lines 163-176):
`bazelPath`, `workspacePath`, and the optional `workspaceConfig`. -/
structure SessionState where
  bazelPath : String
  workspacePath : String
  workspaceConfig : Option String
deriving DecidableEq, Repr

/-- One spawn of the external binary: the binary path, the full argument
vector handed to `spawn`, and the working directory. -/
structure Invocation where
  binary : String
  argv : List String
  cwd : String
deriving DecidableEq, Repr

/-- Argument-vector construction of `runBazelCommand` (src/index.ts lines
184-188): `fullArgs = [command, ...args]`, then if `workspaceConfig` is set,
`fullArgs.unshift('--bazelrc=' + workspaceConfig)` prepends the flag. -/
def fullArgs (workspaceConfig : Option String) (command : String)
    (args : List String) : List String :=
  match workspaceConfig with
  | some c => ("--bazelrc=" ++ c) :: command :: args
  | none => command :: args

/-- The single invocation `runBazelCommand` issues (src/index.ts lines
193-196): the session's binary, the full argument vector, and the session's
workspace path as working directory. -/
def mkInvocation (s : SessionState) (command : String)
    (args : List String) : Invocation :=
  { binary := s.bazelPath
    argv := fullArgs s.workspaceConfig command args
    cwd := s.workspacePath }

/-- The `close` handler of `runBazelCommand` (src/index.ts lines 219-228):
exit code 0 resolves with the accumulated streams; any other code rejects
with `Bazel command failed with code <code>: <stderr>`. -/
def closeHandler (code : Int) (stdout stderr : String) :
    Except String (String × String) :=
  if code = 0 then
    .ok (stdout, stderr)
  else
    .error ("Bazel command failed with code " ++ toString code ++ ": " ++ stderr)

/-- Stream of origin of a chunk of child-process output. -/
inductive StreamTag where
  | stdout
  | stderr
deriving DecidableEq, Repr

/-- One `data` event from the child process: the stream it arrived on and
the chunk text. -/
structure StreamEvent where
  tag : StreamTag
  chunk : String
deriving DecidableEq, Repr

/-- The in-flight state of one `runBazelCommand` call: the two stream
accumulators and the ordered list of arguments passed to the `onOutput`
callback so far. The source's callback takes the chunk string only
(src/index.ts line 181), so each recorded call is a bare string. -/
structure StreamAcc where
  stdout : String
  stderr : String
  callbackCalls : List String
deriving DecidableEq, Repr

/-- The `data` handlers of `runBazelCommand` (src/index.ts lines 201-217):
the chunk is appended to its stream's accumulator and passed to `onOutput`
as a bare string, with no stream tag. -/
def handleData (acc : StreamAcc) (e : StreamEvent) : StreamAcc :=
  match e.tag with
  | .stdout =>
      { acc with stdout := acc.stdout ++ e.chunk
                 callbackCalls := acc.callbackCalls ++ [e.chunk] }
  | .stderr =>
      { acc with stderr := acc.stderr ++ e.chunk
                 callbackCalls := acc.callbackCalls ++ [e.chunk] }

/-- Process an ordered sequence of child-output events from the initial
empty accumulators, as the event loop delivers them. -/
def processEvents (events : List StreamEvent) : StreamAcc :=
  events.foldl handleData { stdout := "", stderr := "", callbackCalls := [] }

/-- `buildTargets` (src/index.ts lines 237-240): one `build` invocation with
the caller's targets. -/
def buildTargetsInvocations (s : SessionState) (targets : List String) :
    List Invocation :=
  [mkInvocation s "build" targets]

/-- Result policy of `buildTargets`: stdout and stderr joined by a newline. -/
def buildTargetsResult (stdout stderr : String) : String :=
  stdout ++ "\n" ++ stderr

/-- `queryTarget` (src/index.ts lines 242-245): one `query` invocation with
the pattern as sole argument. -/
def queryTargetInvocations (s : SessionState) (pattern : String) :
    List Invocation :=
  [mkInvocation s "query" [pattern]]

/-- Result policy of `queryTarget`, modelling `stdout || stderr`: stdout
when it is non-empty (truthy), else stderr. -/
def queryTargetResult (stdout stderr : String) : String :=
  if stdout = "" then stderr else stdout

/-- `testTargets` (src/index.ts lines 247-250): one `test` invocation with
the caller's targets. -/
def testTargetsInvocations (s : SessionState) (targets : List String) :
    List Invocation :=
  [mkInvocation s "test" targets]

/-- Result policy of `testTargets`: stdout and stderr joined by a newline. -/
def testTargetsResult (stdout stderr : String) : String :=
  stdout ++ "\n" ++ stderr

/-- `listTargets` (src/index.ts lines 252-256): one `query` invocation for
the pattern `path + "/..."`. -/
def listTargetsInvocations (s : SessionState) (path : String) :
    List Invocation :=
  [mkInvocation s "query" [path ++ "/..."]]

/-- Result policy of `listTargets`: raw stdout only, stderr discarded. -/
def listTargetsResult (stdout _stderr : String) : String :=
  stdout

/-- Argument shaping of `fetchDependencies` (src/index.ts lines 258-264):
`args` starts as `["fetch"]` and the targets (or the wildcard `//...`) are
pushed after it. -/
def fetchDependenciesArgs (targets : Option (List String)) : List String :=
  match targets with
  | some ts => if ts.length > 0 then "fetch" :: ts else ["fetch", "//..."]
  | none => ["fetch", "//..."]

/-- `fetchDependencies` (src/index.ts line 266): one invocation of the
`build` subcommand with the shaped argument list. -/
def fetchDependenciesInvocations (s : SessionState)
    (targets : Option (List String)) : List Invocation :=
  [mkInvocation s "build" (fetchDependenciesArgs targets)]

/-- Result policy of `fetchDependencies`: stdout and stderr joined by a
newline. -/
def fetchDependenciesResult (stdout stderr : String) : String :=
  stdout ++ "\n" ++ stderr

/-- `setWorkspacePath` (src/index.ts lines 270-287): throws when the path
does not exist, throws when none of the three marker files exists directly
under it, and otherwise replaces `workspacePath` and returns the
confirmation message naming old and new paths. No subprocess is involved. -/
def setWorkspacePath (fs : FileSystem) (s : SessionState) (newPath : String) :
    Except String (SessionState × String) :=
  if !existsSync fs newPath then
    .error ("Workspace path does not exist: " ++ newPath)
  else if !(existsSync fs (pathJoin newPath "WORKSPACE")
            || existsSync fs (pathJoin newPath "WORKSPACE.bazel")
            || existsSync fs (pathJoin newPath "MODULE.bazel")) then
    .error ("Path does not appear to be a Bazel workspace: " ++ newPath)
  else
    .ok ({ s with workspacePath := newPath },
      "Workspace path updated from " ++ s.workspacePath ++ " to " ++ newPath)

/-- The workspace-marker check of `setWorkspacePath` in isolation
(src/index.ts lines 276-278). -/
def isWorkspace (fs : FileSystem) (p : String) : Bool :=
  existsSync fs (pathJoin p "WORKSPACE")
    || existsSync fs (pathJoin p "WORKSPACE.bazel")
    || existsSync fs (pathJoin p "MODULE.bazel")

/-- The session state held after a `setWorkspacePath` call: on success the
updated state, on a thrown error the state from before the call (the source
assigns `this.workspacePath` only after both checks pass). -/
def stateAfterSwitch (fs : FileSystem) (s : SessionState) (newPath : String) :
    SessionState :=
  match setWorkspacePath fs s newPath with
  | .ok (s', _) => s'
  | .error _ => s

/-- The structured argument object of a tool call. The handler reads only
`targets`, `pattern` and `path`; an `additionalArgs` member may be present
in a request but no code path reads it. -/
structure ToolArguments where
  targets : Option (List String)
  pattern : Option String
  path : Option String
  additionalArgs : Option (List String)
deriving DecidableEq, Repr

/-- The outcome of the request handler's dispatch: which `BazelClient`
operation is invoked with which arguments, or rejection with an error
message (thrown and caught into the error payload). -/
inductive HandlerAction where
  | invokeBuild (targets : List String)
  | invokeQuery (pattern : String)
  | invokeTest (targets : List String)
  | invokeList (path : String)
  | invokeFetch (targets : Option (List String))
  | invokeSetWorkspace (path : String)
  | reject (message : String)
deriving DecidableEq, Repr

/-- The `switch` of the `CallToolRequestSchema` handler (src/index.ts lines
432-492): each case tests an unprefixed tool name, validates the required
field (absent or empty values are falsy and rejected), and calls the
matching `BazelClient` operation; the `default` case throws
`Unknown tool: <name>`. -/
def dispatch (name : String) (args : ToolArguments) : HandlerAction :=
  if name = "build_target" then
    match args.targets with
    | some ts =>
        if ts.length = 0 then .reject "Missing required argument: targets"
        else .invokeBuild ts
    | none => .reject "Missing required argument: targets"
  else if name = "query_target" then
    match args.pattern with
    | some pt =>
        if pt = "" then .reject "Missing required argument: pattern"
        else .invokeQuery pt
    | none => .reject "Missing required argument: pattern"
  else if name = "test_target" then
    match args.targets with
    | some ts =>
        if ts.length = 0 then .reject "Missing required argument: targets"
        else .invokeTest ts
    | none => .reject "Missing required argument: targets"
  else if name = "list_targets" then
    match args.path with
    | some p =>
        if p = "" then .reject "Missing required argument: path"
        else .invokeList p
    | none => .reject "Missing required argument: path"
  else if name = "fetch_dependencies" then
    .invokeFetch args.targets
  else if name = "set_workspace_path" then
    match args.path with
    | some p =>
        if p = "" then .reject "Missing required argument: path"
        else .invokeSetWorkspace p
    | none => .reject "Missing required argument: path"
  else
    .reject ("Unknown tool: " ++ name)

/-- The full handler body (src/index.ts lines 427-492): a call with no
arguments object is rejected before the dispatch; otherwise the dispatch
decides the action. -/
def handleCallTool (name : String) (args : Option ToolArguments) :
    HandlerAction :=
  match args with
  | none => .reject "No arguments provided"
  | some a => dispatch name a

/-- The subprocess invocations each dispatched action issues. Rejection and
`setWorkspacePath` spawn nothing. -/
def invocationsOf (s : SessionState) : HandlerAction → List Invocation
  | .invokeBuild ts => buildTargetsInvocations s ts
  | .invokeQuery pt => queryTargetInvocations s pt
  | .invokeTest ts => testTargetsInvocations s ts
  | .invokeList p => listTargetsInvocations s p
  | .invokeFetch ts => fetchDependenciesInvocations s ts
  | .invokeSetWorkspace _ => []
  | .reject _ => []

/-- The six tool names the server declares in its `ListToolsRequestSchema`
response (src/index.ts lines 65-161 and 515-531). -/
def declaredToolNames : List String :=
  ["bazel_build_target", "bazel_query_target", "bazel_test_target",
   "bazel_list_targets", "bazel_fetch_dependencies",
   "bazel_set_workspace_path"]

/-- A session with no workspace-config override, for concrete evaluation. -/
def sessionNoConfig : SessionState :=
  { bazelPath := "bazel", workspacePath := "/ws", workspaceConfig := none }

/-- A session with a workspace-config override, for concrete evaluation. -/
def sessionWithConfig : SessionState :=
  { bazelPath := "bazel", workspacePath := "/ws", workspaceConfig := some "/cfg" }

/-- Substring containment on strings: the needle occurs contiguously in the
haystack. -/
def ContainsSubstr (haystack needle : String) : Prop :=
  ∃ a b, haystack = a ++ needle ++ b

/-- Concatenation of a list of chunks, in order. -/
def concatChunks (l : List String) : String :=
  l.foldl (fun x c => x ++ c) ""

lemma foldl_append_string (l : List String) :
    ∀ a, l.foldl (fun x c => x ++ c) a = a ++ concatChunks l := by
  induction l with
  | nil => intro a; simp [concatChunks, String.append_empty]
  | cons c l ih =>
      intro a
      have hc : concatChunks (c :: l) = c ++ concatChunks l := ih c
      rw [List.foldl_cons, ih (a ++ c), hc, String.append_assoc]

lemma concatChunks_cons (c : String) (l : List String) :
    concatChunks (c :: l) = c ++ concatChunks l :=
  foldl_append_string l c

/-- An empty filesystem: no path exists. -/
def fsEmpty : FileSystem := []

/-- A filesystem holding a single regular file at `/f`. -/
def fsFileOnly : FileSystem := [("/f", FSKind.file)]

/-- A filesystem holding one directory with no workspace marker under it. -/
def fsEmptyDir : FileSystem := [("/tmp/empty-dir", FSKind.dir)]

/-- A filesystem holding a valid workspace: a directory `/ws2` with a
`MODULE.bazel` marker directly under it. -/
def fsValidWs : FileSystem :=
  [("/ws2", FSKind.dir), ("/ws2/MODULE.bazel", FSKind.file)]

/-- Claim C1 (code_bug evidence): `fetchDependencies` does not issue
`["build", ...T]` (or `["build", "//..."]` for an empty list) — the literal
`"fetch"` that initializes its argument array is passed to the `build`
subcommand as a first positional argument, so the vector is
`["build", "fetch", ...]` at every input. -/
theorem fetchDependencies_argv_has_stray_fetch_literal :
    (fetchDependenciesInvocations sessionNoConfig none).map Invocation.argv
        = [["build", "fetch", "//..."]] ∧
    (fetchDependenciesInvocations sessionNoConfig (some [])).map Invocation.argv
        = [["build", "fetch", "//..."]] ∧
    (fetchDependenciesInvocations sessionNoConfig (some ["//x"])).map Invocation.argv
        = [["build", "fetch", "//x"]] ∧
    [["build", "fetch", "//..."]] ≠ [[("build" : String), "//..."]] := by
  refine ⟨rfl, rfl, rfl, by decide⟩

/-- Claim C2: every tool name the server declares (all `bazel_`-prefixed)
matches none of the dispatch cases (which test the unprefixed names), so the
handler rejects it with `Unknown tool: <name>` and no `BazelClient`
operation is invoked. -/
theorem declared_names_dispatch_to_unknown_tool (args : ToolArguments)
    (name : String) (hname : name ∈ declaredToolNames) (s : SessionState) :
    handleCallTool name (some args) = .reject ("Unknown tool: " ++ name) ∧
    invocationsOf s (handleCallTool name (some args)) = [] := by
  fin_cases hname <;> exact ⟨rfl, rfl⟩

/-- Witness for C2: the declared name `bazel_build_target` with a
well-formed argument object is rejected as an unknown tool. -/
theorem declared_names_dispatch_to_unknown_tool_witness :
    handleCallTool "bazel_build_target"
        (some ⟨some ["//a"], none, none, none⟩)
      = .reject ("Unknown tool: " ++ "bazel_build_target") ∧
    invocationsOf sessionNoConfig
        (handleCallTool "bazel_build_target"
          (some ⟨some ["//a"], none, none, none⟩)) = [] :=
  declared_names_dispatch_to_unknown_tool ⟨some ["//a"], none, none, none⟩
    "bazel_build_target" (by decide) sessionNoConfig

/-- Claim C3 (code_bug evidence): no dispatch case reads an
`additionalArgs` member — the dispatched action is independent of that
field — and a `build_target` call carrying
`additionalArgs = ["--verbose_failures"]` still issues the bare
`["build", "//a"]` argument vector, dropping the passthrough flags the
repository's documentation promises to append. -/
theorem dispatch_ignores_additionalArgs :
    (∀ (name : String) (t : Option (List String)) (pt q : Option String)
        (e e' : Option (List String)),
      dispatch name ⟨t, pt, q, e⟩ = dispatch name ⟨t, pt, q, e'⟩) ∧
    invocationsOf sessionNoConfig
        (handleCallTool "build_target"
          (some ⟨some ["//a"], none, none, some ["--verbose_failures"]⟩))
      = [{ binary := "bazel", argv := ["build", "//a"], cwd := "/ws" }] ∧
    ¬ ("--verbose_failures" ∈ (["build", "//a"] : List String)) := by
  refine ⟨fun name t pt q e e' => rfl, rfl, by decide⟩

/-- Claim C4 counterexample: `/f` exists but is a regular file, not a
directory; `setWorkspacePath` nevertheless passes the existence check
(`fs.existsSync` accepts any entry) and fails with the "not a recognized
workspace" error instead of the "does not exist" error the claim requires
for every non-directory path. -/
theorem setWorkspacePath_file_path_counterexample :
    fsLookup fsFileOnly "/f" = some FSKind.file ∧
    fsLookup fsFileOnly "/f" ≠ some FSKind.dir ∧
    setWorkspacePath fsFileOnly sessionNoConfig "/f"
      = .error "Path does not appear to be a Bazel workspace: /f" ∧
    ("Path does not appear to be a Bazel workspace: /f" : String)
      ≠ "Workspace path does not exist: /f" := by
  refine ⟨rfl, by decide, rfl, by decide⟩

/-- Claim C4 (amended): `setWorkspacePath` fails with the "does not exist"
error exactly when the path names no filesystem entry (an existence check,
not a directory or readability check); an existing path with none of the
three markers (WORKSPACE, WORKSPACE.bazel, MODULE.bazel) directly under it
fails with the "not a recognized workspace" error; in either failure case
the session state is unchanged and no subprocess is spawned. -/
theorem setWorkspacePath_validation (fs : FileSystem) (s : SessionState)
    (p : String) :
    (existsSync fs p = false →
      setWorkspacePath fs s p
        = .error ("Workspace path does not exist: " ++ p)) ∧
    (existsSync fs p = true → isWorkspace fs p = false →
      setWorkspacePath fs s p
        = .error ("Path does not appear to be a Bazel workspace: " ++ p)) ∧
    (∀ e, setWorkspacePath fs s p = .error e →
      stateAfterSwitch fs s p = s) ∧
    invocationsOf s (HandlerAction.invokeSetWorkspace p) = [] := by
  refine ⟨?_, ?_, ?_, rfl⟩
  · intro h
    simp [setWorkspacePath, h]
  · intro h1 h2
    simp only [isWorkspace] at h2
    simp [setWorkspacePath, h1, h2]
  · intro e he
    simp [stateAfterSwitch, he]

/-- Witness for C4 (amended): a nonexistent path fails with the
"does not exist" error, and an existing marker-free directory fails with
the "not a recognized workspace" error. -/
theorem setWorkspacePath_validation_witness :
    setWorkspacePath fsEmpty sessionNoConfig "/nonexistent"
        = .error ("Workspace path does not exist: " ++ "/nonexistent") ∧
    setWorkspacePath fsEmptyDir sessionNoConfig "/tmp/empty-dir"
        = .error ("Path does not appear to be a Bazel workspace: "
            ++ "/tmp/empty-dir") :=
  ⟨(setWorkspacePath_validation fsEmpty sessionNoConfig "/nonexistent").1
      (by decide),
   (setWorkspacePath_validation fsEmptyDir sessionNoConfig
      "/tmp/empty-dir").2.1 (by decide) (by decide)⟩

/-- Claim C5: on exit code 0 the call resolves with the full accumulated
stdout and stderr; on a nonzero code it fails with a message that contains
the exit code and the accumulated stderr and is built without the
accumulated stdout (the same message results for any stdout). -/
theorem closeHandler_exit_code_policy (code : Int) (stdout stderr : String) :
    (code = 0 → closeHandler code stdout stderr = .ok (stdout, stderr)) ∧
    (code ≠ 0 →
      ∃ msg, closeHandler code stdout stderr = .error msg ∧
        ContainsSubstr msg (toString code) ∧
        ContainsSubstr msg stderr ∧
        ∀ otherStdout, closeHandler code otherStdout stderr = .error msg) := by
  constructor
  · intro h
    simp [closeHandler, h]
  · intro h
    refine ⟨"Bazel command failed with code " ++ toString code ++ ": "
        ++ stderr, ?_, ?_, ?_, ?_⟩
    · simp [closeHandler, h]
    · exact ⟨"Bazel command failed with code ", ": " ++ stderr,
        by simp [String.append_assoc]⟩
    · exact ⟨"Bazel command failed with code " ++ toString code ++ ": ", "",
        by simp [String.append_empty, String.append_assoc]⟩
    · intro otherStdout
      simp [closeHandler, h]

/-- Witness for C5: the spec's nonzero-exit scenario — stdout "partial",
stderr "boom", exit code 1. -/
theorem closeHandler_exit_code_policy_witness :
    ∃ msg, closeHandler 1 "partial" "boom" = .error msg ∧
      ContainsSubstr msg (toString (1 : Int)) ∧
      ContainsSubstr msg "boom" ∧
      ∀ otherStdout, closeHandler 1 otherStdout "boom" = .error msg :=
  (closeHandler_exit_code_policy 1 "partial" "boom").2 (by decide)

lemma handleData_foldl (events : List StreamEvent) :
    ∀ acc : StreamAcc,
      events.foldl handleData acc =
        { stdout := acc.stdout ++ concatChunks
            ((events.filter fun e => e.tag == StreamTag.stdout).map
              StreamEvent.chunk)
          stderr := acc.stderr ++ concatChunks
            ((events.filter fun e => e.tag == StreamTag.stderr).map
              StreamEvent.chunk)
          callbackCalls := acc.callbackCalls ++ events.map StreamEvent.chunk
        } := by
  induction events with
  | nil => intro acc; simp [concatChunks, String.append_empty]
  | cons e l ih =>
      intro acc
      cases e with
      | mk tag chunk =>
          cases tag <;>
            simp [handleData, ih, concatChunks_cons, String.append_assoc]

/-- Claim C6 counterexample: the `onOutput` callback receives the bare
chunk string with no stream-of-origin tag — a chunk `"x"` arriving on
stdout and a chunk `"x"` arriving on stderr produce identical callback
invocations, although the events differ in origin, so the forwarded chunks
are not tagged with their stream of origin. -/
theorem callback_untagged_counterexample :
    (processEvents [⟨StreamTag.stdout, "x"⟩]).callbackCalls
        = (processEvents [⟨StreamTag.stderr, "x"⟩]).callbackCalls ∧
    (⟨StreamTag.stdout, "x"⟩ : StreamEvent) ≠ ⟨StreamTag.stderr, "x"⟩ ∧
    (processEvents [⟨StreamTag.stdout, "x"⟩]).callbackCalls = ["x"] := by
  refine ⟨rfl, by decide, rfl⟩

/-- Claim C6 (amended): each arriving chunk is forwarded to the callback
immediately and in arrival order as a bare, untagged string, and appended
verbatim to its stream's accumulator; for chunks "a", "b", "c" on stdout
the callback is invoked three times in that order and the accumulated
stdout is "abc". -/
theorem streaming_order_and_accumulation (events : List StreamEvent) :
    (processEvents events).callbackCalls = events.map StreamEvent.chunk ∧
    (processEvents events).stdout = concatChunks
        ((events.filter fun e => e.tag == StreamTag.stdout).map
          StreamEvent.chunk) ∧
    (processEvents events).stderr = concatChunks
        ((events.filter fun e => e.tag == StreamTag.stderr).map
          StreamEvent.chunk) ∧
    (processEvents [⟨StreamTag.stdout, "a"⟩, ⟨StreamTag.stdout, "b"⟩,
        ⟨StreamTag.stdout, "c"⟩]).callbackCalls = ["a", "b", "c"] ∧
    (processEvents [⟨StreamTag.stdout, "a"⟩, ⟨StreamTag.stdout, "b"⟩,
        ⟨StreamTag.stdout, "c"⟩]).stdout = "abc" := by
  have h := handleData_foldl events
      { stdout := "", stderr := "", callbackCalls := [] }
  refine ⟨?_, ?_, ?_, rfl, rfl⟩ <;>
    simp [processEvents, h, String.empty_append]

/-- Claim C7: `queryTarget`'s result policy returns stdout when stdout is
non-empty and stderr when stdout is empty, so the result is non-empty
whenever either stream is. -/
theorem queryTarget_result_policy (stdout stderr : String) :
    (stdout ≠ "" → queryTargetResult stdout stderr = stdout) ∧
    (stdout = "" → queryTargetResult stdout stderr = stderr) ∧
    (stdout ≠ "" ∨ stderr ≠ "" → queryTargetResult stdout stderr ≠ "") := by
  refine ⟨?_, ?_, ?_⟩
  · intro h
    simp [queryTargetResult, h]
  · intro h
    simp [queryTargetResult, h]
  · intro hor
    by_cases h : stdout = ""
    · rcases hor with h1 | h2
      · exact absurd h h1
      · simpa [queryTargetResult, h] using h2
    · simp [queryTargetResult, h]

/-- Witness for C7: both branches of the result policy and non-emptiness at
concrete streams. -/
theorem queryTarget_result_policy_witness :
    queryTargetResult "out" "err" = "out" ∧
    queryTargetResult "" "err" = "err" ∧
    queryTargetResult "" "err" ≠ "" :=
  ⟨(queryTarget_result_policy "out" "err").1 (by decide),
   (queryTarget_result_policy "" "err").2.1 rfl,
   (queryTarget_result_policy "" "err").2.2 (Or.inr (by decide))⟩

/-- Claim C8: for a non-empty target list, `buildTargets` issues exactly
one invocation with argument vector `["build", ...targets]`, with the
single flag `--bazelrc=<path>` prepended before the subcommand exactly when
a workspace config is set; its result joins stdout and stderr with a
newline. -/
theorem buildTargets_invocation_shape (s : SessionState)
    (targets : List String) (_hne : targets ≠ []) :
    buildTargetsInvocations s targets = [mkInvocation s "build" targets] ∧
    (s.workspaceConfig = none →
      (mkInvocation s "build" targets).argv = "build" :: targets) ∧
    (∀ c, s.workspaceConfig = some c →
      (mkInvocation s "build" targets).argv
        = ("--bazelrc=" ++ c) :: "build" :: targets) ∧
    (∀ stdout stderr,
      buildTargetsResult stdout stderr = stdout ++ "\n" ++ stderr) := by
  refine ⟨rfl, ?_, ?_, fun _ _ => rfl⟩
  · intro h
    simp [mkInvocation, fullArgs, h]
  · intro c h
    simp [mkInvocation, fullArgs, h]

/-- Witness for C8: a concrete non-empty target list under a session with a
config override and one without. -/
theorem buildTargets_invocation_shape_witness :
    buildTargetsInvocations sessionWithConfig ["//a"]
        = [mkInvocation sessionWithConfig "build" ["//a"]] ∧
    (mkInvocation sessionWithConfig "build" ["//a"]).argv
        = ("--bazelrc=" ++ "/cfg") :: "build" :: ["//a"] ∧
    (mkInvocation sessionNoConfig "build" ["//a"]).argv
        = "build" :: ["//a"] :=
  ⟨(buildTargets_invocation_shape sessionWithConfig ["//a"] (by decide)).1,
   (buildTargets_invocation_shape sessionWithConfig ["//a"]
      (by decide)).2.2.1 "/cfg" rfl,
   (buildTargets_invocation_shape sessionNoConfig ["//a"]
      (by decide)).2.1 rfl⟩

/-- Claim C9 counterexample: for the path `"//"` (the documented way to
list all targets) the synthesized pattern is `"///..."` — the slash-join
does produce a doubled separator beyond the expected `"//..."` form. -/
theorem listTargets_doubled_separator_counterexample :
    (listTargetsInvocations sessionNoConfig "//").map Invocation.argv
        = [["query", "///..."]] ∧
    ("//" ++ "/..." : String) = "///..." ∧
    ("///..." : String) ≠ "//..." := by
  refine ⟨rfl, rfl, by decide⟩

/-- Claim C9 (amended): `listTargets` issues exactly one `query` invocation
whose sole positional argument is literally `path ++ "/..."` — so for
`path = "//"` the pattern is `"///..."`, which does contain an extra
separator — and the operation returns accumulated stdout only, discarding
stderr. -/
theorem listTargets_pattern_and_result (s : SessionState) (p : String) :
    listTargetsInvocations s p = [mkInvocation s "query" [p ++ "/..."]] ∧
    (∀ stdout stderr, listTargetsResult stdout stderr = stdout) :=
  ⟨rfl, fun _ _ => rfl⟩

/-- Claim C10: switching twice to the same valid workspace path succeeds
both times and the state after the second call equals the state after the
first — `workspacePath` is the new path, the binary path and config
override are unchanged. -/
theorem setWorkspacePath_idempotent (fs : FileSystem) (s : SessionState)
    (p : String) (h1 : existsSync fs p = true)
    (h2 : isWorkspace fs p = true) :
    ∃ m1 m2,
      setWorkspacePath fs s p = .ok ({ s with workspacePath := p }, m1) ∧
      setWorkspacePath fs { s with workspacePath := p } p
          = .ok ({ s with workspacePath := p }, m2) ∧
      ({ s with workspacePath := p } : SessionState).bazelPath
          = s.bazelPath ∧
      ({ s with workspacePath := p } : SessionState).workspaceConfig
          = s.workspaceConfig := by
  simp only [isWorkspace] at h2
  refine ⟨"Workspace path updated from " ++ s.workspacePath ++ " to " ++ p,
      "Workspace path updated from " ++ p ++ " to " ++ p, ?_, ?_, rfl, rfl⟩ <;>
    simp [setWorkspacePath, h1, h2]

/-- Witness for C10: a concrete valid workspace (directory `/ws2` holding
`MODULE.bazel`) switched to twice from the default session. -/
theorem setWorkspacePath_idempotent_witness :
    ∃ m1 m2,
      setWorkspacePath fsValidWs sessionNoConfig "/ws2"
          = .ok ({ sessionNoConfig with workspacePath := "/ws2" }, m1) ∧
      setWorkspacePath fsValidWs
          { sessionNoConfig with workspacePath := "/ws2" } "/ws2"
          = .ok ({ sessionNoConfig with workspacePath := "/ws2" }, m2) ∧
      ({ sessionNoConfig with workspacePath := "/ws2" }
          : SessionState).bazelPath = sessionNoConfig.bazelPath ∧
      ({ sessionNoConfig with workspacePath := "/ws2" }
          : SessionState).workspaceConfig
          = sessionNoConfig.workspaceConfig :=
  setWorkspacePath_idempotent fsValidWs sessionNoConfig "/ws2"
    (by decide) (by decide)

end BazelMCP
